import Mathlib

/-!
# Verification of the price_hunt scraping pipeline

Shallow embedding of the repository's scraping core:

* `scraper/common.py` — `RateLimiter`, `ProductDetailExtractor` (its
  `asyncio.Semaphore(1)` gate), and the module's defined names;
* `scraper/ryans.py` — `RyansScraper.extract` / `extract_details` / `scrape`;
* `scraper/startech.py` — `StarTechScraper.extract` / `extract_details` /
  `scrape`;
* `comparison/views.py` — `ProductComparisonView.get_scraped_data`.

Conventions of the embedding:

* A raised (uncaught) Python exception is an `Except.error`; a function whose
  body catches `Exception` and returns a value is total in the model.
* A BeautifulSoup lookup (`find`, `select_one`) that can miss is an `Option`;
  `some` stands for a found, truthy tag carrying the given stripped text.
* Time is `ℚ` (seconds); the cooperative asyncio event loop is modelled as an
  explicit interleaving of the atomic segments between `await` points.
-/

/-- Python exception values relevant to the embedded code paths. -/
inductive PyExn where
  | attributeError
  | jsonDecodeError
  | other (msg : String)
deriving DecidableEq, Repr

/-- The product record both scrapers build:
`{"url": ..., "name": ..., "price": ..., "description": ...}`. -/
structure ProductData where
  url : String
  name : String
  price : String
  description : String
deriving DecidableEq, Repr

/-! ## StarTech extraction (`scraper/startech.py`, `StarTechScraper.extract`) -/

/-- The `<td class="product-price">` element as `StarTechScraper.extract`
inspects it: `insText` is `td.find("ins").get_text(strip=True)` when a truthy
`ins` tag (discounted/sale price) is present, `tdText` is
`td.get_text(strip=True)` (the plain/list price text). -/
structure StPriceTd where
  insText : Option String
  tdText : String
deriving DecidableEq, Repr

/-- The parts of a StarTech product page that `StarTechScraper.extract` reads:
`productName` = text of `soup.find("h1", class_="product-name")`,
`productPrice` = `soup.find("td", class_="product-price")`,
`shortDescriptionUl` = `soup.find("div", class_="short-description")` (outer
`Option`: is the div present) and its `.find("ul")` serialized by `str`
(inner `Option`: is a truthy `ul` present). -/
structure StarTechPage where
  productName : Option String
  productPrice : Option StPriceTd
  shortDescriptionUl : Option (Option String)
deriving DecidableEq, Repr

/-- `StarTechScraper.extract(url)`: fetches, then reads name, price and
description with no exception handling of its own.  A missing `h1` makes
`None.get_text` raise `AttributeError`; a missing price `td` makes
`None.find("ins")` raise; a missing description div makes `None.find("ul")`
raise.  `fetched` is the outcome of `self.smart_fetcher.fetch(url)` followed by
`BeautifulSoup` parsing (an `.error` covers the fetch itself raising). -/
def startechExtract (url : String) (fetched : Except PyExn StarTechPage) :
    Except PyExn ProductData :=
  match fetched with
  | .error e => .error e
  | .ok page =>
    match page.productName with
    | none => .error .attributeError
    | some nm =>
      match page.productPrice with
      | none => .error .attributeError
      | some td =>
        let price := match td.insText with
          | some s => s
          | none => td.tdText
        match page.shortDescriptionUl with
        | none => .error .attributeError
        | some ul =>
          .ok { url := url, name := nm, price := price,
                description := match ul with
                  | some s => s
                  | none => "" }

/-- One item of the StarTech search-suggestion JSON `products` array; only the
keys the code reads (`href`, `type`) are modelled. -/
structure StItem where
  href : Option String
  type : Option String
deriving DecidableEq, Repr

/-- The parsed search-suggestion JSON: `search_result.get("products", [])`. -/
structure StJson where
  products : Option (List StItem)
deriving DecidableEq, Repr

/-- `StarTechScraper.scrape` candidate filtering (startech.py line 76):
`[product for product in products if not product.get("type")]` — an item is
kept exactly when its `type` key is absent or its value is falsy (`""`). -/
def stCandidates (items : List StItem) : List StItem :=
  items.filter fun it =>
    match it.type with
    | none => true
    | some t => t = ""

/-- The per-item filter of `extract_details` (both scrapers):
`if product and product.get("href")` — a task is created exactly for items
whose `href` is present and truthy (non-empty). -/
def stTaskHrefs (items : List StItem) : List String :=
  items.filterMap fun it =>
    match it.href with
    | some h => if h = "" then none else some h
    | none => none

/-- `await asyncio.gather(*tasks)` over `StarTechScraper.extract` tasks: the
results are collected in task order; if any task raises, the `await` raises
(`.error`) instead of returning a list. -/
def stMapExtract (g : String → Except PyExn StarTechPage) :
    List String → Except PyExn (List ProductData)
  | [] => .ok []
  | h :: t =>
    match startechExtract h (g h) with
    | .error e => .error e
    | .ok d =>
      match stMapExtract g t with
      | .error e => .error e
      | .ok ds => .ok (d :: ds)

/-- Outcome of the search phase of `StarTechScraper.scrape`, covering every
path up to `json.loads`: a constructor or fetch raise (caught by the inner
`except`, leaving `search_result = None`), a falsy search result, a
non-JSON body (`json.loads` raises, caught by the outer `except`), or parsed
JSON. -/
inductive StSearchOutcome where
  | initRaises (e : PyExn)
  | falsy
  | notJson (e : PyExn)
  | json (j : StJson)
deriving DecidableEq, Repr

/-- `StarTechScraper.scrape(query)`: the outer `try` catches every `Exception`
and returns `[]`, so the model is total.  `g` gives each product URL's fetched
page (or the exception fetching/parsing it raises). -/
def startechScrape (o : StSearchOutcome)
    (g : String → Except PyExn StarTechPage) : List ProductData :=
  match o with
  | .initRaises _ => []
  | .falsy => []
  | .notJson _ => []
  | .json j =>
    let products := j.products.getD []
    if products.isEmpty then []
    else
      match stMapExtract g (stTaskHrefs (stCandidates products)) with
      | .ok res => res
      | .error _ => []

/-! ## Ryans extraction (`scraper/ryans.py`, `RyansScraper.extract`) -/

/-- The parts of a Ryans product page that `RyansScraper.extract` reads:
`nameItemprop` = text of `soup.find("h1", attrs={"itemprop": "name"})`,
`priceTag` = text of
`soup.select_one("span.stock-text, span.comming-soon-font, span.new-sp-text")`,
`shortDescAttrUl` = `soup.find("div", class_="short-desc-attr")` (outer
`Option`) and its `.find("ul")` (inner `Option`, holding `str(description)`
after the class-attribute stripping loop). -/
structure RyansPage where
  nameItemprop : Option String
  priceTag : Option String
  shortDescAttrUl : Option (Option String)
deriving DecidableEq, Repr

/-- Outcome of `self.smart_fetcher.fetch(url)` inside `RyansScraper.extract`:
the fetch raises, returns falsy content (`if content:` fails), or returns a
page. -/
inductive RyansFetch where
  | raises (e : PyExn)
  | empty
  | page (p : RyansPage)
deriving DecidableEq, Repr

/-- The body of `RyansScraper.extract` before its `except` clause.  The
description lookup `soup.find("div", class_="short-desc-attr").find("ul")`
raises `AttributeError` when the div is missing; otherwise the final
`if name and price_tag and description:` returns the record, and any falsy
field yields `{}` (modelled `none`). -/
def ryansExtractBody (url : String) (f : RyansFetch) :
    Except PyExn (Option ProductData) :=
  match f with
  | .raises e => .error e
  | .empty => .ok none
  | .page p =>
    match p.shortDescAttrUl with
    | none => .error .attributeError
    | some ul =>
      match p.nameItemprop, p.priceTag, ul with
      | some nm, some pr, some u =>
        .ok (some { url := url, name := nm, price := pr, description := u })
      | _, _, _ => .ok none

/-- `RyansScraper.extract(url)`: the whole body is wrapped in
`try ... except Exception: return {}`, so it never raises; `{}` is `none`. -/
def ryansExtract (url : String) (f : RyansFetch) : Option ProductData :=
  match ryansExtractBody url f with
  | .ok r => r
  | .error _ => none

/-- A candidate dict `{"href": ...}` handed to `RyansScraper.extract_details`. -/
structure RyCandidate where
  href : Option String
deriving DecidableEq, Repr

/-- The `if product and product.get("href")` filter of
`RyansScraper.extract_details`: one extraction task per candidate whose
`href` is present and non-empty. -/
def ryCandidateHrefs (cands : List RyCandidate) : List String :=
  cands.filterMap fun c =>
    match c.href with
    | some h => if h = "" then none else some h
    | none => none

/-- `RyansScraper.extract_details(products)`: gathers one `extract` task per
href-bearing candidate; since `ryansExtract` never raises, the gathered list
always has one entry (a record or `{}` = `none`) per task, in task order. -/
def ryansExtractDetails (cands : List RyCandidate) (f : String → RyansFetch) :
    List (Option ProductData) :=
  (ryCandidateHrefs cands).map fun h => ryansExtract h (f h)

/-! ## Ryans scrape with explicit resource events (`RyansScraper.scrape`) -/

/-- Outcome of the search phase of `RyansScraper.scrape` once the fetchers
exist: falsy `search_result`, or a parsed page whose
`soup.find_all("a", class_="snize-item")` anchors carry the given hrefs. -/
inductive RySearchOutcome where
  | falsy
  | page (anchors : List RyCandidate)
deriving DecidableEq, Repr

/-- Where the inner `try` of `RyansScraper.scrape` (lines 69-79) stops: each
constructor raise happens after the previous statements succeeded.
`aiohttp.ClientSession()` runs first, then `HttpClientFetcher(...)`, then
`PlaywrightClientFetcher(logger)`, then `SmartFetcher(...)`, then
`self.smart_fetcher.fetch(url)`. -/
inductive RyInitOutcome where
  | sessionCtorRaises (e : PyExn)
  | httpFetcherCtorRaises (e : PyExn)
  | playwrightCtorRaises (e : PyExn)
  | smartCtorRaises (e : PyExn)
  | searchFetchRaises (e : PyExn)
  | searchOk (sr : RySearchOutcome)
deriving DecidableEq, Repr

/-- Observable resource events of one `RyansScraper.scrape` call:
whether the aiohttp client session was constructed and later closed, whether
the playwright fetcher was constructed and later stopped, and the returned
list. -/
structure RyScrapeRun where
  sessionOpened : Bool
  sessionClosed : Bool
  fetcherCreated : Bool
  fetcherStopped : Bool
  result : List (Option ProductData)
deriving DecidableEq, Repr

/-- The search-phase candidate collection of `RyansScraper.scrape`
(lines 87-89): `if product and product.get("href"):
all_products.extend([{"href": product.get("href")}])`. -/
def ryAllProducts (anchors : List RyCandidate) : List RyCandidate :=
  (ryCandidateHrefs anchors).map fun h => ⟨some h⟩

/-- `RyansScraper.scrape(query)` as a resource trace.  Both the inner
`except` (lines 77-79) and the `finally` (lines 98-101) guard cleanup with
`if client_session and playwright_fetcher:`, so cleanup runs only when BOTH
were successfully constructed.  The outer `except Exception` returns `[]`. -/
def ryansScrapeRun (o : RyInitOutcome) (f : String → RyansFetch) : RyScrapeRun :=
  match o with
  | .sessionCtorRaises _ =>
    { sessionOpened := false, sessionClosed := false,
      fetcherCreated := false, fetcherStopped := false, result := [] }
  | .httpFetcherCtorRaises _ =>
    { sessionOpened := true, sessionClosed := false,
      fetcherCreated := false, fetcherStopped := false, result := [] }
  | .playwrightCtorRaises _ =>
    { sessionOpened := true, sessionClosed := false,
      fetcherCreated := false, fetcherStopped := false, result := [] }
  | .smartCtorRaises _ =>
    { sessionOpened := true, sessionClosed := true,
      fetcherCreated := true, fetcherStopped := true, result := [] }
  | .searchFetchRaises _ =>
    { sessionOpened := true, sessionClosed := true,
      fetcherCreated := true, fetcherStopped := true, result := [] }
  | .searchOk sr =>
    { sessionOpened := true, sessionClosed := true,
      fetcherCreated := true, fetcherStopped := true,
      result :=
        match sr with
        | .falsy => []
        | .page anchors => ryansExtractDetails (ryAllProducts anchors) f }

/-- The value `RyansScraper.scrape` returns. -/
def ryansScrape (o : RyInitOutcome) (f : String → RyansFetch) :
    List (Option ProductData) :=
  (ryansScrapeRun o f).result

/-! ## Comparison view (`comparison/views.py`, `get_scraped_data`) -/

/-- The mapping `{"startech": ..., "ryans": ...}` the view builds. -/
structure ComparisonResult where
  startech : List ProductData
  ryans : List (Option ProductData)
deriving DecidableEq, Repr

/-- `ProductComparisonView.get_scraped_data(product_name)`:
`await asyncio.gather(startech.scrape(...), ryans.scrape(...))` and assemble
the per-site mapping.  Both scrape bodies catch every `Exception` and return
`[]`, so in the model they are total and `gather` always yields the pair. -/
def getScrapedData (so : StSearchOutcome)
    (g : String → Except PyExn StarTechPage)
    (ro : RyInitOutcome) (f : String → RyansFetch) : ComparisonResult :=
  { startech := startechScrape so g, ryans := ryansScrape ro f }

/-! ## Module namespace of `scraper/common.py` (claim C2) -/

/-- Every name bound at module level by executing `scraper/common.py`:
its imports (lines 1-6) and its class statements. -/
def commonModuleNames : List String :=
  ["aiohttp", "asyncio", "time", "Dict", "Any", "List", "TypedDict",
   "ABC", "abstractmethod", "async_playwright",
   "ProductData", "ProductDetailStrategy", "RateLimiter",
   "AsyncCallAPIClient", "SearchAPIClient", "ProductDetailExtractor"]

/-- The names `scraper/ryans.py` line 9 and `scraper/startech.py` line 5 both
import: `from .common import HttpClientFetcher, PlaywrightClientFetcher,
SmartFetcher`. -/
def scraperImportNames : List String :=
  ["HttpClientFetcher", "PlaywrightClientFetcher", "SmartFetcher"]

/-- `from <module> import n1, n2, ...`: Python binds the names left to right
and raises `ImportError` at the first name the module does not define. -/
def fromImportResult (defined : List String) : List String → Except String Unit
  | [] => .ok ()
  | n :: ns =>
    if defined.contains n then fromImportResult defined ns else .error n

/-! ## RateLimiter (`scraper/common.py` lines 23-35) under the asyncio loop -/

/-- `RateLimiter.__init__`: `self.interval = 1.0 / calls_per_second`. -/
def rlIntervalOf (callsPerSecond : ℚ) : ℚ := 1 / callsPerSecond

/-- Where one `wait()` call stands: `ready` (about to run the code before the
`await`), `sleeping wake` (inside `asyncio.sleep`, resuming at `wake`), or
`done ret` (returned at time `ret`). -/
inductive RLPhase where
  | ready
  | sleeping (wake : ℚ)
  | done (ret : ℚ)
deriving DecidableEq, Repr

/-- The event loop's world: the loop clock, the limiter's `last_call` field
(shared by all tasks holding the same `RateLimiter`), and each task's phase. -/
structure RLWorld where
  clock : ℚ
  lastCall : ℚ
  tasks : List RLPhase
deriving DecidableEq, Repr

/-- Run the segment of `wait()` before any suspension for task `i`:
`now = time.time(); elapsed = now - self.last_call`.  If `elapsed <
self.interval` the task suspends in `asyncio.sleep(self.interval - elapsed)`;
otherwise there is no `await`, so `self.last_call = time.time()` and the
return happen atomically at the current clock. -/
def rlStartTask (interval : ℚ) (w : RLWorld) (i : ℕ) : Option RLWorld :=
  match w.tasks[i]? with
  | some .ready =>
    let elapsed := w.clock - w.lastCall
    if elapsed < interval then
      some { w with tasks := w.tasks.set i (.sleeping (w.clock + (interval - elapsed))) }
    else
      some { clock := w.clock, lastCall := w.clock,
             tasks := w.tasks.set i (.done w.clock) }
  | _ => none

/-- Resume task `i` from its sleep: the loop advances to the wake time (never
backwards), the task runs `self.last_call = time.time()` and returns.  Nothing
re-checks `last_call` after the sleep. -/
def rlWakeTask (w : RLWorld) (i : ℕ) : Option RLWorld :=
  match w.tasks[i]? with
  | some (.sleeping wk) =>
    let t := max w.clock wk
    some { clock := t, lastCall := t, tasks := w.tasks.set i (.done t) }
  | _ => none

/-- One scheduling choice of the cooperative event loop. -/
inductive RLEvent where
  | start (i : ℕ)
  | wake (i : ℕ)
deriving DecidableEq, Repr

/-- Execute a schedule; `none` if an event is not enabled. -/
def rlRun (interval : ℚ) (w : RLWorld) : List RLEvent → Option RLWorld
  | [] => some w
  | e :: es =>
    match (match e with
           | .start i => rlStartTask interval w i
           | .wake i => rlWakeTask w i) with
    | some w' => rlRun interval w' es
    | none => none

/-! ## The render-session gate (`ProductDetailExtractor`, common.py) -/

/-- The capacity passed at `ProductDetailExtractor.__init__` line 126:
`self._playwright_sem = asyncio.Semaphore(1)`. -/
def playwrightSemCapacity : ℕ := 1

/-- State of an `asyncio.Semaphore` together with an instrumented count of
tasks currently between `acquire` and the matching `release` (the body of
`async with self._playwright_sem:` in `_process_product`). -/
structure SemState where
  value : ℕ
  holders : ℕ
deriving DecidableEq, Repr

/-- The semaphore as `_process_product` uses it: `acquire` proceeds only when
`value > 0` (otherwise the task suspends — no state change), and every
`release` is issued by a current holder (the `async with` pairing). -/
inductive SemStep where
  | acquire
  | release
deriving DecidableEq, Repr

/-- One enabled semaphore transition, `none` when the step is not enabled. -/
def semStep (st : SemState) : SemStep → Option SemState
  | .acquire =>
    match st.value with
    | 0 => none
    | v + 1 => some ⟨v, st.holders + 1⟩
  | .release =>
    match st.holders with
    | 0 => none
    | h + 1 => some ⟨st.value + 1, h⟩

/-- Run a sequence of semaphore transitions. -/
def semRun (st : SemState) : List SemStep → Option SemState
  | [] => some st
  | s :: ss =>
    match semStep st s with
    | some st' => semRun st' ss
    | none => none

/-- The gate as constructed by `ProductDetailExtractor.__init__`. -/
def playwrightSemInit : SemState := ⟨playwrightSemCapacity, 0⟩

/-! ## SmartFetcher (claim C6) -/

/-- Modelled from the spec: `SmartFetcher` (the spec's AdaptiveFetcher,
§4.5) is imported by `scraper/ryans.py` and `scraper/startech.py` from
`scraper.common` but is not defined anywhere under `src/`; its fetch
algorithm is modelled from the spec's words.  Outcome of one `LightFetcher`
attempt. -/
inductive LightResult where
  | success (content : String)
  | blocked
  | failed (status : Option ℕ)
deriving DecidableEq, Repr

/-- Modelled from the spec: outcome of one `RenderFetcher` attempt (spec
§4.4): success with rendered HTML, or failure (navigation failure, timeout,
or blocked-equivalent empty content, which the spec folds into `Failed`). -/
inductive RenderResult where
  | success (content : String)
  | failed
deriving DecidableEq, Repr

/-- Modelled from the spec: what `SmartFetcher.fetch` exposes to callers
(spec §4.5): `Success(content)` or `Failed`; `Blocked` is hidden. -/
inductive SmartResult where
  | success (content : String)
  | failed
deriving DecidableEq, Repr

/-- Modelled from the spec: the per-instance sticky state of `SmartFetcher`
(spec §2, §4.5): starts unblocked, switches permanently on a `Blocked`
observation. -/
structure SmartFetcherState where
  blocked : Bool
deriving DecidableEq, Repr

/-- Modelled from the spec: a light outcome that triggers the mode switch —
`Blocked`, or a `Failed` whose status indicates access denial (HTTP 403). -/
def lightDenied : LightResult → Bool
  | .blocked => true
  | .failed (some 403) => true
  | _ => false

/-- Modelled from the spec: what the render path returns through
`SmartFetcher` (spec §4.5 step 2, verbatim, with blocked-equivalent results
already folded into `Failed` by `RenderFetcher`). -/
def renderToResult : RenderResult → SmartResult
  | .success c => .success c
  | .failed => .failed

/-- The environment one `fetch(url)` call would find: what the light fetcher
would return if invoked, and what the render fetcher would return if
invoked. -/
structure FetchEnv where
  light : LightResult
  render : RenderResult
deriving DecidableEq, Repr

/-- Result of one `SmartFetcher.fetch` call: the new sticky state, whether
the light fetcher was invoked, and the outcome returned to the caller. -/
structure SmartStepOut where
  state : SmartFetcherState
  lightCalled : Bool
  result : SmartResult
deriving DecidableEq, Repr

/-- Modelled from the spec: one `SmartFetcher.fetch` call (spec §4.5).
In `Render` mode only the render path runs.  In `Light` mode the light
fetcher runs; `Success` is returned, `Blocked` or a 403 `Failed` switches the
mode (sticky) and falls through to render, and any other `Failed` is returned
directly. -/
def smartFetchStep (st : SmartFetcherState) (env : FetchEnv) : SmartStepOut :=
  if st.blocked then
    { state := st, lightCalled := false, result := renderToResult env.render }
  else
    match env.light with
    | .success c => { state := st, lightCalled := true, result := .success c }
    | .blocked =>
      { state := ⟨true⟩, lightCalled := true, result := renderToResult env.render }
    | .failed s =>
      if s = some 403 then
        { state := ⟨true⟩, lightCalled := true, result := renderToResult env.render }
      else
        { state := st, lightCalled := true, result := .failed }

/-- A sequence of `fetch` calls on one `SmartFetcher` instance: the list of
`lightCalled` flags (one per call, in order) and the final sticky state. -/
def smartRun (st : SmartFetcherState) : List FetchEnv → List Bool × SmartFetcherState
  | [] => ([], st)
  | e :: es =>
    ((smartFetchStep st e).lightCalled :: (smartRun (smartFetchStep st e).state es).1,
     (smartRun (smartFetchStep st e).state es).2)

/-! ## Theorems -/

/-- Claim C2 (confirmed): `scraper/common.py` defines none of the three names
`scraper/ryans.py` and `scraper/startech.py` import from it, so the
`from .common import ...` statement raises `ImportError` at the first name
(`HttpClientFetcher`) on every invocation, and neither scraper module ever
finishes loading — `RyansScraper.scrape` / `StarTechScraper.scrape` are
unreachable through these modules as written. -/
theorem c2_import_fails :
    fromImportResult commonModuleNames scraperImportNames = .error "HttpClientFetcher"
    ∧ scraperImportNames.all (fun n => !(commonModuleNames.contains n)) = true :=
  ⟨rfl, by decide⟩

/-- Claim C9 (confirmed): `StarTechScraper.extract` takes the text of the
`ins` (discounted/sale) tag inside `td.product-price` when one is present,
and the plain `td` text otherwise. -/
theorem c9_discount_price_preferred (url nm tdText s : String) (dv : Option String) :
    startechExtract url (.ok ⟨some nm, some ⟨some s, tdText⟩, some dv⟩)
      = .ok ⟨url, nm, s, dv.getD ""⟩
    ∧ startechExtract url (.ok ⟨some nm, some ⟨none, tdText⟩, some dv⟩)
      = .ok ⟨url, nm, tdText, dv.getD ""⟩ := by
  cases dv <;> exact ⟨rfl, rfl⟩

/-- Claim C3 counterexample: on a StarTech product page whose price element is
absent, `StarTechScraper.extract` does not return a typed failure — the
expression `soup.find("td", class_="product-price").find("ins")` raises an
uncaught `AttributeError` (an `.error` in the embedding). -/
theorem c3_counterexample :
    startechExtract "https://s/p1"
        (.ok ⟨some "Product X", none, some (some "<ul><li>a</li></ul>")⟩)
      = .error .attributeError := rfl

/-- Claim C3 amended: only `RyansScraper.extract` contains extraction failure
as a typed value — it returns `{}` (here `none`) and never raises when a
required field is missing; `StarTechScraper.extract` instead raises an
uncaught exception whenever the name, the price marker, or the description
container is absent. -/
theorem c3_amended (url : String) (p : RyansPage) (q : StarTechPage)
    (hp : p.nameItemprop = none ∨ p.priceTag = none ∨ p.shortDescAttrUl = none
          ∨ p.shortDescAttrUl = some none)
    (hq : q.productName = none ∨ q.productPrice = none ∨ q.shortDescriptionUl = none) :
    ryansExtract url (.page p) = none
    ∧ ∃ e, startechExtract url (.ok q) = .error e := by
  constructor
  · obtain ⟨n, pr, d⟩ := p
    cases n <;> cases pr <;> rcases d with _ | (_ | u) <;>
      simp_all [ryansExtract, ryansExtractBody]
  · obtain ⟨n, pr, d⟩ := q
    cases n <;> cases pr <;> cases d <;>
      first
        | exact ⟨.attributeError, rfl⟩
        | simp_all

/-- Witness for `c3_amended` at a Ryans page missing its name and a StarTech
page missing its name. -/
theorem c3_amended_witness :
    ryansExtract "u" (.page ⟨none, some "500", some (some "<ul></ul>")⟩) = none
    ∧ ∃ e, startechExtract "u"
        (.ok ⟨none, some ⟨none, "700"⟩, some (some "<ul></ul>")⟩) = .error e :=
  c3_amended "u" ⟨none, some "500", some (some "<ul></ul>")⟩
    ⟨none, some ⟨none, "700"⟩, some (some "<ul></ul>")⟩
    (Or.inl rfl) (Or.inl rfl)

/-- The stub search JSON of claim C8:
`{"products":[{"href":"/p/1"},{"href":"/p/2","type":"suggestion"}]}`. -/
def c8StubItems : List StItem :=
  [⟨some "/p/1", none⟩, ⟨some "/p/2", some "suggestion"⟩]

/-- Claim C8 (confirmed): an item of the StarTech search response survives the
candidate filter iff it does not carry a non-empty `type` value, and the stub
search JSON yields exactly one extraction task, for `/p/1`. -/
theorem c8_type_filter :
    (∀ (items : List StItem) (it : StItem),
        it ∈ stCandidates items ↔ it ∈ items ∧ ¬ ∃ t, it.type = some t ∧ t ≠ "")
    ∧ stCandidates c8StubItems = [⟨some "/p/1", none⟩]
    ∧ stTaskHrefs (stCandidates c8StubItems) = ["/p/1"] := by
  refine ⟨?_, by decide, by decide⟩
  intro items it
  rcases it with ⟨h, ty⟩
  cases ty <;> simp [stCandidates, List.mem_filter]

/-- Claim C10 (code bug): if `PlaywrightClientFetcher(logger)` raises after
`aiohttp.ClientSession()` has been constructed, both the inner `except` and
the `finally` of `RyansScraper.scrape` skip cleanup (their guard
`if client_session and playwright_fetcher:` is false), and the call returns
with the HTTP client session still open. -/
theorem c10_session_leak :
    (ryansScrapeRun (.playwrightCtorRaises (.other "browser launch failed"))
        (fun _ => .empty)).sessionOpened = true
    ∧ (ryansScrapeRun (.playwrightCtorRaises (.other "browser launch failed"))
        (fun _ => .empty)).sessionClosed = false :=
  ⟨rfl, rfl⟩


/-- If any gathered StarTech extraction task raises, the `await
asyncio.gather` raises. -/
lemma stMapExtract_error_of_mem (g : String → Except PyExn StarTechPage)
    (l : List String) (u : String) (hu : u ∈ l) (e : PyExn)
    (he : startechExtract u (g u) = .error e) :
    ∃ e', stMapExtract g l = .error e' := by
  induction l with
  | nil => cases hu
  | cons a t ih =>
    rcases List.mem_cons.mp hu with rfl | hmem
    · exact ⟨e, by simp [stMapExtract, he]⟩
    · cases hx : startechExtract a (g a) with
      | error e0 => exact ⟨e0, by simp [stMapExtract, hx]⟩
      | ok d =>
        obtain ⟨e', he'⟩ := ih hmem
        exact ⟨e', by simp [stMapExtract, hx, he']⟩

/-- The five-candidate stub of claim C4, all plain product items. -/
def c4Items : List StItem :=
  [⟨some "/1", none⟩, ⟨some "/2", none⟩, ⟨some "/3", none⟩,
   ⟨some "/4", none⟩, ⟨some "/5", none⟩]

/-- A complete StarTech product page. -/
def c4FullPage : StarTechPage :=
  ⟨some "Prod", some ⟨none, "1000"⟩, some (some "<ul><li>d</li></ul>")⟩

/-- A StarTech product page whose price element is missing. -/
def c4BrokenPage : StarTechPage :=
  ⟨some "Prod", none, some (some "<ul><li>d</li></ul>")⟩

/-- The detail fetches of claim C4's stub run: pages `/4` and `/5` fail
extraction, the other three are complete. -/
def c4Fetch : String → Except PyExn StarTechPage := fun u =>
  if u = "/4" ∨ u = "/5" then .ok c4BrokenPage else .ok c4FullPage

/-- Claim C4 counterexample: 5 StarTech candidates of which exactly 2 fail
extraction do not yield 3 records — the first raising task aborts the whole
`asyncio.gather`, the outer `except` swallows it, and `scrape` returns `[]`
(0 records, the 3 successes dropped too). -/
theorem c4_counterexample :
    (stTaskHrefs (stCandidates c4Items)).length = 5
    ∧ (stTaskHrefs (stCandidates c4Items)).countP
        (fun u => match startechExtract u (c4Fetch u) with
                  | .error _ => true
                  | .ok _ => false) = 2
    ∧ startechScrape (.json ⟨some c4Items⟩) c4Fetch = []
    ∧ (startechScrape (.json ⟨some c4Items⟩) c4Fetch).length ≠ 3 := by
  decide

/-- Claim C4 amended: per-item failures are not omitted item-wise by either
scraper.  `RyansScraper.extract_details` returns one entry per href-bearing
candidate — failed items appear as `{}` (`none`), so the sequence length is
the candidate count, not `n − k`; `StarTechScraper.scrape` aborts the whole
batch and returns `[]` as soon as any single extraction task raises. -/
theorem c4_amended (cands : List RyCandidate) (f : String → RyansFetch)
    (j : StJson) (g : String → Except PyExn StarTechPage) (u : String) (e : PyExn)
    (hu : u ∈ stTaskHrefs (stCandidates (j.products.getD [])))
    (he : startechExtract u (g u) = .error e) :
    (ryansExtractDetails cands f).length = (ryCandidateHrefs cands).length
    ∧ startechScrape (.json j) g = [] := by
  constructor
  · simp [ryansExtractDetails]
  · obtain ⟨e', he'⟩ := stMapExtract_error_of_mem g _ u hu e he
    by_cases hp : (j.products.getD []).isEmpty
    · simp [startechScrape, hp]
    · simp [startechScrape, hp, he']

/-- Witness for `c4_amended`: two Ryans candidates and a one-item StarTech
search whose single product page fails extraction. -/
theorem c4_amended_witness :
    (ryansExtractDetails [⟨some "/a"⟩, ⟨some "/b"⟩] (fun _ => .empty)).length
      = (ryCandidateHrefs [⟨some "/a"⟩, ⟨some "/b"⟩]).length
    ∧ startechScrape (.json ⟨some [⟨some "/bad", none⟩]⟩)
        (fun _ => .ok ⟨some "X", none, some none⟩) = [] :=
  c4_amended [⟨some "/a"⟩, ⟨some "/b"⟩] (fun _ => .empty)
    ⟨some [⟨some "/bad", none⟩]⟩ (fun _ => .ok ⟨some "X", none, some none⟩)
    "/bad" .attributeError (by decide) rfl

/-- A total pipeline fault of the StarTech scrape: its search phase raises
(constructor or fetch raise, caught by the inner `except`, leaving a falsy
`search_result`), or its body raises because `json.loads` fails (caught by
the outer `except`). -/
def startechTotalFault (so : StSearchOutcome) : Prop :=
  (∃ e, so = .initRaises e) ∨ (∃ e, so = .notJson e)

/-- A total pipeline fault of the Ryans scrape: any raise during fetcher
construction or the search-phase fetch (all caught, directly or at the outer
`except`, and ending in `return []`). -/
def ryansTotalFault (ro : RyInitOutcome) : Prop :=
  (∃ e, ro = .sessionCtorRaises e) ∨ (∃ e, ro = .httpFetcherCtorRaises e)
  ∨ (∃ e, ro = .playwrightCtorRaises e) ∨ (∃ e, ro = .smartCtorRaises e)
  ∨ (∃ e, ro = .searchFetchRaises e)

/-- Claim C5 (confirmed): whichever site suffers a total pipeline fault, its
entry of the mapping `get_scraped_data` returns is `[]` while the other
site's entry is exactly what that site scraped (its m records when it
succeeds); the call itself always returns the mapping, because both `scrape`
bodies catch every `Exception`. -/
theorem c5_site_isolation (so : StSearchOutcome)
    (g : String → Except PyExn StarTechPage)
    (ro : RyInitOutcome) (f : String → RyansFetch) :
    (startechTotalFault so →
      (getScrapedData so g ro f).startech = []
      ∧ (getScrapedData so g ro f).ryans = ryansScrape ro f)
    ∧ (ryansTotalFault ro →
      (getScrapedData so g ro f).ryans = []
      ∧ (getScrapedData so g ro f).startech = startechScrape so g) := by
  constructor
  · rintro (⟨e, rfl⟩ | ⟨e, rfl⟩) <;> exact ⟨rfl, rfl⟩
  · rintro (⟨e, rfl⟩ | ⟨e, rfl⟩ | ⟨e, rfl⟩ | ⟨e, rfl⟩ | ⟨e, rfl⟩) <;> exact ⟨rfl, rfl⟩

/-- Witness for `c5_site_isolation`, both directions.  First a StarTech
search-phase network outage while Ryans succeeds with one record; then a
Ryans fetcher-construction fault while StarTech succeeds with one record. -/
theorem c5_site_isolation_witness :
    ((getScrapedData (.initRaises (.other "network outage"))
        (fun _ => .ok ⟨none, none, none⟩)
        (.searchOk (.page [⟨some "/r1"⟩]))
        (fun _ => .page ⟨some "R 7600X", some "23,500",
          some (some "<ul><li>6 cores</li></ul>")⟩)).startech = []
     ∧ (getScrapedData (.initRaises (.other "network outage"))
        (fun _ => .ok ⟨none, none, none⟩)
        (.searchOk (.page [⟨some "/r1"⟩]))
        (fun _ => .page ⟨some "R 7600X", some "23,500",
          some (some "<ul><li>6 cores</li></ul>")⟩)).ryans
         = ryansScrape (.searchOk (.page [⟨some "/r1"⟩]))
            (fun _ => .page ⟨some "R 7600X", some "23,500",
              some (some "<ul><li>6 cores</li></ul>")⟩))
    ∧ ryansScrape (.searchOk (.page [⟨some "/r1"⟩]))
        (fun _ => .page ⟨some "R 7600X", some "23,500",
          some (some "<ul><li>6 cores</li></ul>")⟩)
      = [some ⟨"/r1", "R 7600X", "23,500", "<ul><li>6 cores</li></ul>"⟩]
    ∧ ((getScrapedData (.json ⟨some [⟨some "/s1", none⟩]⟩)
        (fun _ => .ok ⟨some "Core i7", some ⟨some "41,000", "45,00041,000"⟩,
          some (some "<ul><li>8 cores</li></ul>")⟩)
        (.playwrightCtorRaises (.other "browser launch failed"))
        (fun _ => .empty)).ryans = []
     ∧ (getScrapedData (.json ⟨some [⟨some "/s1", none⟩]⟩)
        (fun _ => .ok ⟨some "Core i7", some ⟨some "41,000", "45,00041,000"⟩,
          some (some "<ul><li>8 cores</li></ul>")⟩)
        (.playwrightCtorRaises (.other "browser launch failed"))
        (fun _ => .empty)).startech
         = startechScrape (.json ⟨some [⟨some "/s1", none⟩]⟩)
            (fun _ => .ok ⟨some "Core i7", some ⟨some "41,000", "45,00041,000"⟩,
              some (some "<ul><li>8 cores</li></ul>")⟩))
    ∧ startechScrape (.json ⟨some [⟨some "/s1", none⟩]⟩)
        (fun _ => .ok ⟨some "Core i7", some ⟨some "41,000", "45,00041,000"⟩,
          some (some "<ul><li>8 cores</li></ul>")⟩)
      = [⟨"/s1", "Core i7", "41,000", "<ul><li>8 cores</li></ul>"⟩] :=
  ⟨(c5_site_isolation _ _ _ _).1 (Or.inl ⟨_, rfl⟩), by decide,
   (c5_site_isolation _ _ _ _).2 (Or.inr (Or.inr (Or.inl ⟨_, rfl⟩))), by decide⟩

/-- One enabled semaphore transition preserves `value + holders`. -/
lemma semStep_sum (st st' : SemState) (s : SemStep) (h : semStep st s = some st') :
    st'.value + st'.holders = st.value + st.holders := by
  cases s <;> unfold semStep at h
  · cases hv : st.value with
    | zero => rw [hv] at h; cases h
    | succ v => rw [hv] at h; cases h; simp; omega
  · cases hh : st.holders with
    | zero => rw [hh] at h; cases h
    | succ v => rw [hh] at h; cases h; simp; omega

/-- Any run of enabled transitions preserves `value + holders`. -/
lemma semRun_sum (steps : List SemStep) (st st' : SemState)
    (h : semRun st steps = some st') :
    st'.value + st'.holders = st.value + st.holders := by
  induction steps generalizing st with
  | nil =>
    simp only [semRun, Option.some.injEq] at h
    rw [h]
  | cons s ss ih =>
    unfold semRun at h
    cases hs : semStep st s with
    | none => rw [hs] at h; cases h
    | some st1 =>
      rw [hs] at h
      calc st'.value + st'.holders = st1.value + st1.holders := ih st1 h
        _ = st.value + st.holders := semStep_sum st st1 s hs

/-- Claim C7 counterexample: the gate `ProductDetailExtractor` actually
constructs is `asyncio.Semaphore(1)` — its capacity is 1, not (approximately)
10. -/
theorem c7_counterexample :
    playwrightSemCapacity = 1 ∧ playwrightSemCapacity ≠ 10 := by decide

/-- Claim C7 amended: in every reachable state of the render-session gate
(any sequence of enabled `acquire`/`release` transitions from the state
`ProductDetailExtractor.__init__` builds), the number of tasks between
`acquire` and the matching `release` never exceeds the configured capacity —
which is 1, so gated extraction is fully serialized. -/
theorem c7_gate_bound (steps : List SemStep) (st' : SemState)
    (h : semRun playwrightSemInit steps = some st') :
    st'.holders ≤ playwrightSemCapacity := by
  have hsum := semRun_sum steps playwrightSemInit st' h
  simp only [playwrightSemInit] at hsum
  omega

/-- Witness for `c7_gate_bound`: one task acquires the gate and holds it. -/
theorem c7_gate_bound_witness :
    semRun playwrightSemInit [SemStep.acquire] = some ⟨0, 1⟩
    ∧ (SemState.mk 0 1).holders ≤ playwrightSemCapacity :=
  ⟨by decide, c7_gate_bound [SemStep.acquire] ⟨0, 1⟩ (by decide)⟩

/-- Claim C1 (code bug): `RateLimiter.wait` holds no lock, so the event loop
may run the read-check sections of two concurrent `wait()` calls before
either sleeper updates `last_call`.  With the default 2 calls/second
(interval 1/2 s) and the last grant at t = 10, both tasks read the stale
`last_call = 10`, both sleep to t = 21/2, and both return at t = 21/2: the
inter-grant delta is 0 < interval. -/
theorem c1_rate_limiter_race :
    rlRun (rlIntervalOf 2) ⟨10, 10, [.ready, .ready]⟩
        [.start 0, .start 1, .wake 0, .wake 1]
      = some ⟨21/2, 21/2, [.done (21/2), .done (21/2)]⟩
    ∧ ((21 : ℚ)/2) - 21/2 < rlIntervalOf 2 := by
  constructor
  · norm_num [rlRun, rlStartTask, rlWakeTask, rlIntervalOf, RLWorld.mk.injEq]
  · norm_num [rlIntervalOf]

/-- Once the sticky flag is set, a `fetch` call keeps it set and does not
invoke the light fetcher. -/
lemma smartFetchStep_sticky (st : SmartFetcherState) (e : FetchEnv)
    (h : st.blocked = true) :
    (smartFetchStep st e).state.blocked = true
    ∧ (smartFetchStep st e).lightCalled = false := by
  simp [smartFetchStep, h]

/-- A call whose light outcome is `Blocked` or a 403 `Failed` leaves the
instance in `Render` mode, whatever the previous mode was. -/
lemma smartFetchStep_observe (st : SmartFetcherState) (e : FetchEnv)
    (h : lightDenied e.light = true) :
    (smartFetchStep st e).state.blocked = true := by
  rcases st with ⟨b⟩
  cases b
  · cases hl : e.light with
    | success c => rw [hl] at h; simp [lightDenied] at h
    | blocked => simp [smartFetchStep, hl]
    | failed s =>
      rw [hl] at h
      have hs : s = some 403 := by
        cases s with
        | none => simp [lightDenied] at h
        | some n =>
          cases hn : n == 403 with
          | true => simp_all [lightDenied]
          | false => simp_all [lightDenied]
      subst hs
      simp [smartFetchStep, hl]
  · simp [smartFetchStep]

/-- From a blocked state, no later call in a run ever invokes the light
fetcher. -/
lemma smartRun_blocked_all_false (es : List FetchEnv) (st : SmartFetcherState)
    (h : st.blocked = true) : ∀ b ∈ (smartRun st es).1, b = false := by
  induction es generalizing st with
  | nil => simp [smartRun]
  | cons e es ih =>
    intro b hb
    have hs := smartFetchStep_sticky st e h
    simp only [smartRun, List.mem_cons] at hb
    rcases hb with rfl | hb
    · exact hs.2
    · exact ih (smartFetchStep st e).state hs.1 b hb

/-- Claim C6 (confirmed, spec-modelled): once any `fetch` call on a
`SmartFetcher` instance observes a `Blocked` light outcome (or a 403
`Failed`), every later call on the same instance leaves its `lightCalled`
flag false — the light fetcher is never invoked again, whatever the later
environments would have returned. -/
theorem c6_sticky_render_mode (st : SmartFetcherState) (pre post : List FetchEnv)
    (e : FetchEnv) (h : lightDenied e.light = true) :
    ∀ b ∈ ((smartRun st (pre ++ e :: post)).1.drop (pre.length + 1)), b = false := by
  induction pre generalizing st with
  | nil =>
    intro b hb
    simp only [List.nil_append, smartRun, List.length_nil, List.drop_succ_cons,
      List.drop_zero] at hb
    exact smartRun_blocked_all_false post _ (smartFetchStep_observe st e h) b hb
  | cons a pre ih =>
    intro b hb
    simp only [List.cons_append, smartRun, List.length_cons,
      List.drop_succ_cons] at hb
    exact ih (smartFetchStep st a).state b hb

/-- Witness for `c6_sticky_render_mode`: call 1 succeeds via light fetch,
call 2 is blocked, call 3 would succeed via light fetch but is served by the
render path only — the flags evaluate to `[true, true, false]`. -/
theorem c6_sticky_render_mode_witness :
    lightDenied (FetchEnv.mk .blocked (.success "r2")).light = true
    ∧ (smartRun ⟨false⟩
        ([⟨.success "p1", .success "r1"⟩] ++ ⟨.blocked, .success "r2"⟩ ::
          [⟨.success "p3", .success "r3"⟩])).1 = [true, true, false]
    ∧ ∀ b ∈ ((smartRun ⟨false⟩
        ([⟨.success "p1", .success "r1"⟩] ++ ⟨.blocked, .success "r2"⟩ ::
          [⟨.success "p3", .success "r3"⟩])).1.drop 2), b = false :=
  ⟨rfl, by decide,
   c6_sticky_render_mode ⟨false⟩ [⟨.success "p1", .success "r1"⟩]
     [⟨.success "p3", .success "r3"⟩] ⟨.blocked, .success "r2"⟩ rfl⟩
